import Mathlib

/-!
Verification of the repeated weather-tool pipeline of this repository
(`Coach/Solutions/Challenge-02/python/weather.py` and its near-duplicate
copies in `src/challenge-03/mcp_weather_client/weather.py` and
`src/challenge-04/python/weather_remote_server.py`).

The Python code is shallowly embedded: JSON bodies returned by the
National Weather Service API become an inductive `Json` value, the
network helper `make_nws_request` (which returns a parsed body or `None`
on any failure) becomes an oracle parameter `fetch : String → Option Json`,
and a Python expression that may raise becomes a value in
`Except PyErr _` where `.error` marks an uncaught exception escaping to
the caller and `.ok` a returned string.

The float parameters `latitude`/`longitude` are embedded by their decimal
renderings (`String`), since the only use the code makes of them is
interpolation into the points URL.
-/

/-- Python exceptions that the embedded operations can raise. -/
inductive PyErr where
  | keyError (k : String)
  | typeError
  | attributeError
deriving DecidableEq

/-- A parsed JSON body, as produced by `response.json()` in
`make_nws_request`.  Numeric leaves are embedded as integers (the fields
the pipelines render, e.g. `temperature`, are integral in the NWS API;
no claim depends on float rendering). -/
inductive Json where
  | null
  | bool (b : Bool)
  | num (n : Int)
  | str (s : String)
  | arr (elems : List Json)
  | obj (entries : List (String × Json))

mutual
/-- Python `repr` of a JSON-like value (used by `str` inside containers).
The quote-escaping Python performs inside string reprs is not modelled;
no pipeline path renders a container. -/
def pyRepr : Json → String
  | .null => "None"
  | .bool b => if b then "True" else "False"
  | .num n => toString n
  | .str s => "'" ++ s ++ "'"
  | .arr xs => "[" ++ String.intercalate ", " (pyReprList xs) ++ "]"
  | .obj kvs => "\x7b" ++ String.intercalate ", " (pyReprObj kvs) ++ "\x7d"

/-- Reprs of the elements of a Python list. -/
def pyReprList : List Json → List String
  | [] => []
  | x :: xs => pyRepr x :: pyReprList xs

/-- Reprs of the entries of a Python dict. -/
def pyReprObj : List (String × Json) → List String
  | [] => []
  | (k, v) :: kvs => ("'" ++ k ++ "': " ++ pyRepr v) :: pyReprObj kvs
end

/-- Python `str()` as used by f-string interpolation: a string
interpolates as itself, everything else as its `repr`. -/
def pyStr : Json → String
  | .str s => s
  | j => pyRepr j

namespace Json

/-- Python truthiness: `not j` is true exactly on falsy values
(`None`, `False`, `0`, `""`, `[]`, the empty dict). -/
def falsy : Json → Bool
  | .null => true
  | .bool b => !b
  | .num n => n == 0
  | .str s => s == ""
  | .arr xs => xs.isEmpty
  | .obj kvs => kvs.isEmpty

/-- Python subscription `j[k]` with a string key: a dict yields the value
or raises `KeyError`; subscribing a list, string, number, bool or `None`
with a string raises `TypeError`. -/
def index (j : Json) (k : String) : Except PyErr Json :=
  match j with
  | .obj kvs =>
    match List.lookup k kvs with
    | some v => .ok v
    | none => .error (.keyError k)
  | _ => .error .typeError

/-- Python `j.get(k, dflt)`: defined on dicts only (anything else raises
`AttributeError`), never raises on a dict. -/
def dictGet (j : Json) (k : String) (dflt : Json) : Except PyErr Json :=
  match j with
  | .obj kvs => .ok ((List.lookup k kvs).getD dflt)
  | _ => .error .attributeError

/-- Python membership `k in j` for a string `k`: key test on a dict,
element test on a list, substring test on a string, `TypeError` otherwise. -/
def containsStr (j : Json) (k : String) : Except PyErr Bool :=
  match j with
  | .obj kvs => .ok (List.lookup k kvs).isSome
  | .arr xs => .ok (xs.any (fun x => match x with | .str t => t == k | _ => false))
  | .str s => .ok ((s.splitOn k).length ≥ 2)
  | _ => .error .typeError

/-- Python iteration `for x in j`: a list yields its elements, a dict its
keys, a string its characters (as one-character strings); iterating a
number, bool or `None` raises `TypeError`. -/
def pyIter (j : Json) : Except PyErr (List Json) :=
  match j with
  | .arr xs => .ok xs
  | .obj kvs => .ok (kvs.map (fun kv => .str kv.1))
  | .str s => .ok (s.toList.map (fun c => .str (String.mk [c])))
  | _ => .error .typeError

/-- Python slicing `j[:5]`: the first five elements of a list or
characters of a string; slicing a dict, number, bool or `None` raises
`TypeError`. -/
def slice5 (j : Json) : Except PyErr Json :=
  match j with
  | .arr xs => .ok (.arr (xs.take 5))
  | .str s => .ok (.str (String.mk (s.toList.take 5)))
  | _ => .error .typeError

end Json

/-- Left-to-right effectful map, as a Python list comprehension
`[g x for x in xs]`: the first exception raised by `g` aborts the whole
comprehension. -/
def exceptMap (g : α → Except PyErr β) : List α → Except PyErr (List β)
  | [] => .ok []
  | x :: xs => do
    let y ← g x
    let ys ← exceptMap g xs
    return y :: ys

/-- Constant `NWS_API_BASE` of `weather.py`. -/
def NWS_API_BASE : String := "https://api.weather.gov"

/-- The alerts URL built by `get_alerts`:
`f"{NWS_API_BASE}/alerts/active/area/{state}"`. -/
def alerts_url (state : String) : String :=
  NWS_API_BASE ++ "/alerts/active/area/" ++ state

/-- The points URL built by `get_forecast`:
`f"{NWS_API_BASE}/points/{latitude},{longitude}"`. -/
def points_url (latitude longitude : String) : String :=
  NWS_API_BASE ++ "/points/" ++ latitude ++ "," ++ longitude

/-- Embedding of `make_nws_request(forecast_url)` where `forecast_url`
came out of a JSON body: on a string URL it is the oracle; a non-string
argument makes the HTTP client raise inside `make_nws_request`'s
catch-all `except`, which returns `None`. -/
def fetchJson (fetch : String → Option Json) (url : Json) : Option Json :=
  match url with
  | .str s => fetch s
  | _ => none

/-- Python `not data` applied to the result of `make_nws_request`:
true when the request failed (`None`) or the body is falsy. -/
def notData : Option Json → Bool
  | none => true
  | some j => j.falsy

/-- Embedding of `format_alert` of `Challenge-02/python/weather.py`
(lines 56-76): `props = feature["properties"]` (which may raise), then
each field via `props.get(key, placeholder)` into the fixed f-string
block. -/
def format_alert (feature : Json) : Except PyErr String := do
  let props ← feature.index "properties"
  let ev ← props.dictGet "event" (.str "Unknown")
  let ar ← props.dictGet "areaDesc" (.str "Unknown")
  let sv ← props.dictGet "severity" (.str "Unknown")
  let ds ← props.dictGet "description" (.str "No description available")
  let ins ← props.dictGet "instruction" (.str "No specific instructions provided")
  return "\nEvent: " ++ pyStr ev ++ "\nArea: " ++ pyStr ar ++ "\nSeverity: " ++ pyStr sv
    ++ "\nDescription: " ++ pyStr ds ++ "\nInstructions: " ++ pyStr ins ++ "\n"

/-- Embedding of `get_alerts` of `Challenge-02/python/weather.py`
(lines 79-109), with `make_nws_request` abstracted as the `fetch`
oracle. -/
def get_alerts (fetch : String → Option Json) (state : String) : Except PyErr String :=
  match fetch (alerts_url state) with
  | none => .ok "Unable to fetch alerts or no alerts found."
  | some data =>
    if data.falsy then .ok "Unable to fetch alerts or no alerts found."
    else do
      let hasF ← data.containsStr "features"
      if !hasF then
        return "Unable to fetch alerts or no alerts found."
      else do
        let feats ← data.index "features"
        if feats.falsy then return "No active alerts for this state."
        else do
          let items ← feats.pyIter
          let alerts ← exceptMap format_alert items
          return String.intercalate "\n---\n" alerts

/-- The body of the `try` in `get_forecast`:
`points_data["properties"]["forecast"]`. -/
def forecast_url_of (points_data : Json) : Except PyErr Json := do
  let p ← points_data.index "properties"
  p.index "forecast"

/-- The f-string block built for one forecast period inside
`get_forecast`'s loop (lines 159-164). -/
def format_period (period : Json) : Except PyErr String := do
  let nm ← period.index "name"
  let tmp ← period.index "temperature"
  let tu ← period.index "temperatureUnit"
  let ws ← period.index "windSpeed"
  let wd ← period.index "windDirection"
  let df ← period.index "detailedForecast"
  return "\n" ++ pyStr nm ++ ":\nTemperature: " ++ pyStr tmp ++ "°" ++ pyStr tu
    ++ "\nWind: " ++ pyStr ws ++ " " ++ pyStr wd ++ "\nForecast: " ++ pyStr df ++ "\n"

/-- Embedding of `get_forecast` of `Challenge-02/python/weather.py`
(lines 112-167).  Only `KeyError` is caught around the forecast-URL
extraction; the unguarded accesses `forecast_data["properties"]["periods"]`,
the slice, the iteration, and the period field accesses can raise. -/
def get_forecast (fetch : String → Option Json) (latitude longitude : String) :
    Except PyErr String :=
  match fetch (points_url latitude longitude) with
  | none => .ok "Unable to fetch forecast data for this location."
  | some points_data =>
    if points_data.falsy then .ok "Unable to fetch forecast data for this location."
    else
      match forecast_url_of points_data with
      | .error (.keyError _) => .ok "Unable to determine forecast URL for this location."
      | .error e => .error e
      | .ok forecast_url =>
        match fetchJson fetch forecast_url with
        | none => .ok "Unable to fetch detailed forecast."
        | some forecast_data =>
          if forecast_data.falsy then .ok "Unable to fetch detailed forecast."
          else do
            let props ← forecast_data.index "properties"
            let periods ← props.index "periods"
            let sliced ← periods.slice5
            let items ← sliced.pyIter
            let forecasts ← exceptMap format_period items
            return String.intercalate "\n---\n" forecasts

/-- A points body on which phase 1 of `get_forecast` cannot raise: either
falsy, or a dict whose `properties` entry (if any) is itself a dict, so
that the only exception the `try` body can raise is the `KeyError` it
catches. -/
def pointsSafe (j : Json) : Bool :=
  j.falsy ||
  (match j with
   | .obj kvs =>
     (match List.lookup "properties" kvs with
      | none => true
      | some (.obj _) => true
      | some _ => false)
   | _ => false)

/-- A period dict carrying all six fields the forecast block renders. -/
def periodSafe (p : Json) : Bool :=
  match p with
  | .obj kvs =>
    (List.lookup "name" kvs).isSome && (List.lookup "temperature" kvs).isSome &&
    (List.lookup "temperatureUnit" kvs).isSome && (List.lookup "windSpeed" kvs).isSome &&
    (List.lookup "windDirection" kvs).isSome && (List.lookup "detailedForecast" kvs).isSome
  | _ => false

/-- A forecast body on which the unguarded tail of `get_forecast` cannot
raise: falsy, or `properties.periods` present, a list, and its first five
periods carrying all rendered fields. -/
def forecastSafe (j : Json) : Bool :=
  j.falsy ||
  (match j with
   | .obj kvs =>
     (match List.lookup "properties" kvs with
      | some (.obj pkvs) =>
        (match List.lookup "periods" pkvs with
         | some (.arr ps) => (ps.take 5).all periodSafe
         | _ => false)
      | _ => false)
   | _ => false)

/-- An alert feature `format_alert` cannot raise on: a dict whose
`properties` entry is a dict. -/
def featureSafe (f : Json) : Bool :=
  match f with
  | .obj kvs =>
    (match List.lookup "properties" kvs with
     | some (.obj _) => true
     | _ => false)
  | _ => false

/-- An alerts body on which `get_alerts` cannot raise: falsy, or a dict
whose `features` entry (if any) is falsy or a list of safe features. -/
def alertSafe (j : Json) : Bool :=
  j.falsy ||
  (match j with
   | .obj kvs =>
     (match List.lookup "features" kvs with
      | none => true
      | some f => f.falsy || (match f with | .arr fs => fs.all featureSafe | _ => false))
   | _ => false)

/-- The text a formatted alert shows for one field: the field's value when
the key is present, the given placeholder when it is absent. -/
def fieldOrDefault (kvs : List (String × Json)) (k dflt : String) : String :=
  match List.lookup k kvs with
  | some v => pyStr v
  | none => dflt

namespace Ch03

/-- Copy of `format_alert` from `src/challenge-03/mcp_weather_client/weather.py`
(lines 32-45). -/
def format_alert (feature : Json) : Except PyErr String := do
  let props ← feature.index "properties"
  let ev ← props.dictGet "event" (.str "Unknown")
  let ar ← props.dictGet "areaDesc" (.str "Unknown")
  let sv ← props.dictGet "severity" (.str "Unknown")
  let ds ← props.dictGet "description" (.str "No description available")
  let ins ← props.dictGet "instruction" (.str "No specific instructions provided")
  return "\nEvent: " ++ pyStr ev ++ "\nArea: " ++ pyStr ar ++ "\nSeverity: " ++ pyStr sv
    ++ "\nDescription: " ++ pyStr ds ++ "\nInstructions: " ++ pyStr ins ++ "\n"

/-- Copy of `get_alerts` from `src/challenge-03/mcp_weather_client/weather.py`
(lines 47-71). -/
def get_alerts (fetch : String → Option Json) (state : String) : Except PyErr String :=
  match fetch (alerts_url state) with
  | none => .ok "Unable to fetch alerts or no alerts found."
  | some data =>
    if data.falsy then .ok "Unable to fetch alerts or no alerts found."
    else do
      let hasF ← data.containsStr "features"
      if !hasF then
        return "Unable to fetch alerts or no alerts found."
      else do
        let feats ← data.index "features"
        if feats.falsy then return "No active alerts for this state."
        else do
          let items ← feats.pyIter
          let alerts ← exceptMap format_alert items
          return String.intercalate "\n---\n" alerts

/-- Body of the `try` in challenge-03's `get_forecast` (line 95). -/
def forecast_url_of (points_data : Json) : Except PyErr Json := do
  let p ← points_data.index "properties"
  p.index "forecast"

/-- Per-period f-string block of challenge-03's `get_forecast` (lines 110-115). -/
def format_period (period : Json) : Except PyErr String := do
  let nm ← period.index "name"
  let tmp ← period.index "temperature"
  let tu ← period.index "temperatureUnit"
  let ws ← period.index "windSpeed"
  let wd ← period.index "windDirection"
  let df ← period.index "detailedForecast"
  return "\n" ++ pyStr nm ++ ":\nTemperature: " ++ pyStr tmp ++ "°" ++ pyStr tu
    ++ "\nWind: " ++ pyStr ws ++ " " ++ pyStr wd ++ "\nForecast: " ++ pyStr df ++ "\n"

/-- Copy of `get_forecast` from `src/challenge-03/mcp_weather_client/weather.py`
(lines 74-118). -/
def get_forecast (fetch : String → Option Json) (latitude longitude : String) :
    Except PyErr String :=
  match fetch (points_url latitude longitude) with
  | none => .ok "Unable to fetch forecast data for this location."
  | some points_data =>
    if points_data.falsy then .ok "Unable to fetch forecast data for this location."
    else
      match forecast_url_of points_data with
      | .error (.keyError _) => .ok "Unable to determine forecast URL for this location."
      | .error e => .error e
      | .ok forecast_url =>
        match fetchJson fetch forecast_url with
        | none => .ok "Unable to fetch detailed forecast."
        | some forecast_data =>
          if forecast_data.falsy then .ok "Unable to fetch detailed forecast."
          else do
            let props ← forecast_data.index "properties"
            let periods ← props.index "periods"
            let sliced ← periods.slice5
            let items ← sliced.pyIter
            let forecasts ← exceptMap format_period items
            return String.intercalate "\n---\n" forecasts

end Ch03

namespace Ch04

/-- Copy of `format_alert` from `src/challenge-04/python/weather_remote_server.py`
(lines 53-69). -/
def format_alert (feature : Json) : Except PyErr String := do
  let props ← feature.index "properties"
  let ev ← props.dictGet "event" (.str "Unknown")
  let ar ← props.dictGet "areaDesc" (.str "Unknown")
  let sv ← props.dictGet "severity" (.str "Unknown")
  let ds ← props.dictGet "description" (.str "No description available")
  let ins ← props.dictGet "instruction" (.str "No specific instructions provided")
  return "\nEvent: " ++ pyStr ev ++ "\nArea: " ++ pyStr ar ++ "\nSeverity: " ++ pyStr sv
    ++ "\nDescription: " ++ pyStr ds ++ "\nInstructions: " ++ pyStr ins ++ "\n"

/-- Copy of `get_alerts` from `src/challenge-04/python/weather_remote_server.py`
(lines 87-111). -/
def get_alerts (fetch : String → Option Json) (state : String) : Except PyErr String :=
  match fetch (alerts_url state) with
  | none => .ok "Unable to fetch alerts or no alerts found."
  | some data =>
    if data.falsy then .ok "Unable to fetch alerts or no alerts found."
    else do
      let hasF ← data.containsStr "features"
      if !hasF then
        return "Unable to fetch alerts or no alerts found."
      else do
        let feats ← data.index "features"
        if feats.falsy then return "No active alerts for this state."
        else do
          let items ← feats.pyIter
          let alerts ← exceptMap format_alert items
          return String.intercalate "\n---\n" alerts

/-- Body of the `try` in challenge-04's `get_forecast` (line 152). -/
def forecast_url_of (points_data : Json) : Except PyErr Json := do
  let p ← points_data.index "properties"
  p.index "forecast"

/-- Per-period f-string block of challenge-04's `get_forecast` (lines 167-172). -/
def format_period (period : Json) : Except PyErr String := do
  let nm ← period.index "name"
  let tmp ← period.index "temperature"
  let tu ← period.index "temperatureUnit"
  let ws ← period.index "windSpeed"
  let wd ← period.index "windDirection"
  let df ← period.index "detailedForecast"
  return "\n" ++ pyStr nm ++ ":\nTemperature: " ++ pyStr tmp ++ "°" ++ pyStr tu
    ++ "\nWind: " ++ pyStr ws ++ " " ++ pyStr wd ++ "\nForecast: " ++ pyStr df ++ "\n"

/-- Copy of `get_forecast` from `src/challenge-04/python/weather_remote_server.py`
(lines 131-175). -/
def get_forecast (fetch : String → Option Json) (latitude longitude : String) :
    Except PyErr String :=
  match fetch (points_url latitude longitude) with
  | none => .ok "Unable to fetch forecast data for this location."
  | some points_data =>
    if points_data.falsy then .ok "Unable to fetch forecast data for this location."
    else
      match forecast_url_of points_data with
      | .error (.keyError _) => .ok "Unable to determine forecast URL for this location."
      | .error e => .error e
      | .ok forecast_url =>
        match fetchJson fetch forecast_url with
        | none => .ok "Unable to fetch detailed forecast."
        | some forecast_data =>
          if forecast_data.falsy then .ok "Unable to fetch detailed forecast."
          else do
            let props ← forecast_data.index "properties"
            let periods ← props.index "periods"
            let sliced ← periods.slice5
            let items ← sliced.pyIter
            let forecasts ← exceptMap format_period items
            return String.intercalate "\n---\n" forecasts

end Ch04

/-- Concrete points body naming a forecast endpoint (used by the
malformed-body counterexample run). -/
def c6_points_body : Json :=
  .obj [("properties", .obj [("forecast",
    .str "https://api.weather.gov/gridpoints/SEW/124,67/forecast")])]

/-- Concrete truthy phase-2 body lacking the `properties`/`periods`
structure. -/
def c6_forecast_body : Json := .obj [("status", .num 503)]

/-- Oracle resolving the points lookup but answering phase 2 with a
malformed body. -/
def c6_fetch : String → Option Json := fun u =>
  if u = points_url "47.6062" "-122.3321" then some c6_points_body
  else if u = "https://api.weather.gov/gridpoints/SEW/124,67/forecast" then
    some c6_forecast_body
  else none

/-- Oracle answering the alerts lookup with a feature that lacks the
`properties` key. -/
def c6_alert_fetch : String → Option Json := fun u =>
  if u = alerts_url "WA" then some (.obj [("features", .arr [.obj [("id", .str "a1")]])])
  else none

/-- Well-formed alerts body with one complete feature. -/
def w6_alert_body : Json :=
  .obj [("features", .arr [.obj [("properties", .obj [("event", .str "Flood Warning")])]])]

/-- Well-formed points body naming a forecast endpoint. -/
def w6_points : Json :=
  .obj [("properties", .obj [("forecast",
    .str "https://api.weather.gov/gridpoints/SEW/124,67/forecast")])]

/-- Well-formed forecast period carrying all six rendered fields. -/
def w6_period : Json :=
  .obj [("name", .str "Tonight"), ("temperature", .num 58), ("temperatureUnit", .str "F"),
    ("windSpeed", .str "5 mph"), ("windDirection", .str "SW"),
    ("detailedForecast", .str "Partly cloudy.")]

/-- Well-formed forecast body with one period. -/
def w6_forecast : Json := .obj [("properties", .obj [("periods", .arr [w6_period])])]

/-- Oracle whose every body is well-formed for its role. -/
def w6_fetch : String → Option Json := fun u =>
  if u = alerts_url "CA" then some w6_alert_body
  else if u = points_url "47.6062" "-122.3321" then some w6_points
  else if u = "https://api.weather.gov/gridpoints/SEW/124,67/forecast" then some w6_forecast
  else none

/-- Sample forecast period number `i`, all six fields present. -/
def w1_period (i : Nat) : Json :=
  .obj [("name", .str ("P" ++ toString i)), ("temperature", .num 70),
    ("temperatureUnit", .str "F"), ("windSpeed", .str "5 mph"),
    ("windDirection", .str "NW"), ("detailedForecast", .str "Sunny.")]

/-- Six sample periods: more than the five the tool renders. -/
def w1_periods : List Json :=
  [w1_period 1, w1_period 2, w1_period 3, w1_period 4, w1_period 5, w1_period 6]

/-- Sample points body naming a forecast endpoint. -/
def w1_points : Json :=
  .obj [("properties", .obj [("forecast",
    .str "https://api.weather.gov/gridpoints/SEW/124,67/forecast")])]

/-- Sample forecast body carrying the six periods. -/
def w1_forecast : Json := .obj [("properties", .obj [("periods", .arr w1_periods)])]

/-- Oracle for a fully successful two-phase lookup with six periods. -/
def w1_fetch : String → Option Json := fun u =>
  if u = points_url "47.6062" "-122.3321" then some w1_points
  else if u = "https://api.weather.gov/gridpoints/SEW/124,67/forecast" then some w1_forecast
  else none

/-- The block the tool renders for sample period `i`. -/
def w1_block (i : Nat) : String :=
  "\nP" ++ toString i ++ ":\nTemperature: 70°F\nWind: 5 mph NW\nForecast: Sunny.\n"

/-- The five blocks a successful lookup over `w1_periods` renders. -/
def w1_blocks : List String := [w1_block 1, w1_block 2, w1_block 3, w1_block 4, w1_block 5]

/-- Oracle answering the alerts lookup with an empty feature list. -/
def w2_fetch : String → Option Json := fun u =>
  if u = alerts_url "CA" then some (.obj [("features", .arr [])]) else none

/-- Truthy points body with a `properties` dict lacking the `forecast` key. -/
def w4_points : Json := .obj [("properties", .obj [("gridId", .str "SEW")])]

/-- Oracle whose points body lacks the forecast endpoint reference. -/
def w4_fetch : String → Option Json := fun u =>
  if u = points_url "47.6062" "-122.3321" then some w4_points else none

/-- Points body naming a forecast endpoint the oracle will not answer. -/
def w5_points : Json :=
  .obj [("properties", .obj [("forecast",
    .str "https://api.weather.gov/gridpoints/SEW/124,67/forecast")])]

/-- Oracle succeeding at phase 1 and failing at phase 2. -/
def w5_fetch : String → Option Json := fun u =>
  if u = points_url "47.6062" "-122.3321" then some w5_points else none

/-- Alert properties dict carrying only the `event` field. -/
def w7_props : List (String × Json) := [("event", .str "Flood Warning")]

/-- Points body for the empty-periods scenario. -/
def w9_points : Json :=
  .obj [("properties", .obj [("forecast",
    .str "https://api.weather.gov/gridpoints/SEW/124,67/forecast")])]

/-- Forecast body whose period list is empty. -/
def w9_forecast : Json := .obj [("properties", .obj [("periods", .arr [])])]

/-- Oracle for a successful two-phase lookup returning zero periods. -/
def w9_fetch : String → Option Json := fun u =>
  if u = points_url "47.6062" "-122.3321" then some w9_points
  else if u = "https://api.weather.gov/gridpoints/SEW/124,67/forecast" then some w9_forecast
  else none

/-- Reduction of `>>=` on an `ok` value. -/
@[simp] theorem ok_bind {ε : Type u} {α β : Type v} (a : α) (f : α → Except ε β) :
    (Except.ok a >>= f : Except ε β) = f a := rfl

/-- Reduction of `>>=` on an `error` value. -/
@[simp] theorem error_bind {ε : Type u} {α β : Type v} (e : ε) (f : α → Except ε β) :
    (Except.error e >>= f : Except ε β) = .error e := rfl

/-- Reduction of `pure` on `Except` to `ok`. -/
@[simp] theorem pure_eq_ok {ε : Type u} {α : Type v} (a : α) :
    (pure a : Except ε α) = .ok a := rfl

/-- A successful `exceptMap` produces one output per input. -/
theorem exceptMap_ok_length {g : α → Except PyErr β} :
    ∀ {xs : List α} {ys : List β}, exceptMap g xs = .ok ys → ys.length = xs.length := by
  intro xs
  induction xs with
  | nil => intro ys h; simp [exceptMap] at h; simp [← h]
  | cons x xs ih =>
    intro ys h
    simp only [exceptMap] at h
    cases hx : g x with
    | error e => rw [hx] at h; simp at h
    | ok y =>
      rw [hx] at h
      simp only [ok_bind] at h
      cases hxs : exceptMap g xs with
      | error e => rw [hxs] at h; simp at h
      | ok ys0 =>
        rw [hxs] at h
        simp only [ok_bind, pure_eq_ok, Except.ok.injEq] at h
        subst h
        simp [ih hxs]

/-- A successful string-keyed lookup means the association list is nonempty. -/
theorem lookup_ne_nil {k : String} {kvs : List (String × Json)} {v : Json}
    (h : List.lookup k kvs = some v) : kvs.isEmpty = false := by
  cases kvs with
  | nil => simp [List.lookup] at h
  | cons _ _ => rfl

/-- Reduction of `pyStr` after `getD` with a string default to
`fieldOrDefault`. -/
theorem pyStr_getD (kvs : List (String × Json)) (k dflt : String) :
    pyStr ((List.lookup k kvs).getD (.str dflt)) = fieldOrDefault kvs k dflt := by
  unfold fieldOrDefault
  cases List.lookup k kvs <;> rfl

/-- An `exceptMap` over inputs that all succeed succeeds. -/
theorem exceptMap_ok_of_forall {g : α → Except PyErr β} :
    ∀ {xs : List α}, (∀ x ∈ xs, ∃ y, g x = .ok y) → ∃ ys, exceptMap g xs = .ok ys := by
  intro xs
  induction xs with
  | nil => intro _; exact ⟨[], rfl⟩
  | cons x xs ih =>
    intro h
    obtain ⟨y, hy⟩ := h x (List.mem_cons_self x xs)
    obtain ⟨ys, hys⟩ := ih (fun a ha => h a (List.mem_cons_of_mem x ha))
    exact ⟨y :: ys, by simp [exceptMap, hy, hys]⟩

/-- On every safe feature, `format_alert` returns rather than raises. -/
theorem format_alert_ok_of_featureSafe {f : Json} (h : featureSafe f = true) :
    ∃ s, format_alert f = .ok s := by
  cases f with
  | obj kvs =>
    simp only [featureSafe] at h
    cases hl : List.lookup "properties" kvs with
    | none => rw [hl] at h; simp at h
    | some p =>
      rw [hl] at h
      cases p with
      | obj pk =>
        refine ⟨"\nEvent: " ++ pyStr ((List.lookup "event" pk).getD (.str "Unknown"))
          ++ "\nArea: " ++ pyStr ((List.lookup "areaDesc" pk).getD (.str "Unknown"))
          ++ "\nSeverity: " ++ pyStr ((List.lookup "severity" pk).getD (.str "Unknown"))
          ++ "\nDescription: "
          ++ pyStr ((List.lookup "description" pk).getD (.str "No description available"))
          ++ "\nInstructions: "
          ++ pyStr ((List.lookup "instruction" pk).getD (.str "No specific instructions provided"))
          ++ "\n", ?_⟩
        unfold format_alert
        simp [Json.index, hl, Json.dictGet]
      | null => simp at h
      | bool b => simp at h
      | num n => simp at h
      | str s => simp at h
      | arr xs => simp at h
  | null => simp [featureSafe] at h
  | bool b => simp [featureSafe] at h
  | num n => simp [featureSafe] at h
  | str s => simp [featureSafe] at h
  | arr xs => simp [featureSafe] at h

/-- On every safe period, `format_period` returns rather than raises. -/
theorem format_period_ok_of_periodSafe {p : Json} (h : periodSafe p = true) :
    ∃ s, format_period p = .ok s := by
  cases p with
  | obj kvs =>
    simp only [periodSafe, Bool.and_eq_true, Option.isSome_iff_exists] at h
    obtain ⟨⟨⟨⟨⟨⟨v1, h1⟩, v2, h2⟩, v3, h3⟩, v4, h4⟩, v5, h5⟩, v6, h6⟩ := h
    refine ⟨"\n" ++ pyStr v1 ++ ":\nTemperature: " ++ pyStr v2 ++ "°" ++ pyStr v3
      ++ "\nWind: " ++ pyStr v4 ++ " " ++ pyStr v5 ++ "\nForecast: " ++ pyStr v6 ++ "\n", ?_⟩
    unfold format_period
    simp [Json.index, h1, h2, h3, h4, h5, h6]
  | null => simp [periodSafe] at h
  | bool b => simp [periodSafe] at h
  | num n => simp [periodSafe] at h
  | str s => simp [periodSafe] at h
  | arr xs => simp [periodSafe] at h

/-- On every oracle whose alerts body is safe, `get_alerts` returns. -/
theorem get_alerts_total (fetch : String → Option Json) (state : String)
    (hA : ∀ j, fetch (alerts_url state) = some j → alertSafe j = true) :
    ∃ s, get_alerts fetch state = .ok s := by
  cases hf : fetch (alerts_url state) with
  | none =>
    refine ⟨"Unable to fetch alerts or no alerts found.", ?_⟩
    unfold get_alerts
    rw [hf]
  | some d =>
    have hs := hA d hf
    by_cases hfal : d.falsy = true
    · refine ⟨"Unable to fetch alerts or no alerts found.", ?_⟩
      unfold get_alerts
      rw [hf]
      simp [hfal]
    · have hfal' : d.falsy = false := by simpa using hfal
      cases d with
      | obj kvs =>
        cases hl : List.lookup "features" kvs with
        | none =>
          refine ⟨"Unable to fetch alerts or no alerts found.", ?_⟩
          unfold get_alerts
          rw [hf]
          simp [hfal', Json.containsStr, hl]
        | some f =>
          simp only [alertSafe, hfal', Bool.false_or, hl] at hs
          by_cases hffal : f.falsy = true
          · refine ⟨"No active alerts for this state.", ?_⟩
            unfold get_alerts
            rw [hf]
            simp [hfal', Json.containsStr, hl, Json.index, hffal]
          · have hffal' : f.falsy = false := by simpa using hffal
            rw [hffal'] at hs
            simp only [Bool.false_or] at hs
            cases f with
            | arr fs =>
              simp only [List.all_eq_true] at hs
              obtain ⟨ys, hys⟩ := exceptMap_ok_of_forall
                (fun x hx => format_alert_ok_of_featureSafe (hs x hx))
              refine ⟨String.intercalate "\n---\n" ys, ?_⟩
              unfold get_alerts
              rw [hf]
              simp [hfal', Json.containsStr, hl, Json.index, hffal', Json.pyIter, hys]
            | null => simp at hs
            | bool b => simp at hs
            | num n => simp at hs
            | str s => simp at hs
            | obj o => simp at hs
      | null => simp [alertSafe, hfal'] at hs
      | bool b => simp [alertSafe, hfal'] at hs
      | num n => simp [alertSafe, hfal'] at hs
      | str s => simp [alertSafe, hfal'] at hs
      | arr xs => simp [alertSafe, hfal'] at hs

/-- On every oracle whose points body is safe and whose resolved forecast
body is safe, `get_forecast` returns. -/
theorem get_forecast_total (fetch : String → Option Json) (latitude longitude : String)
    (hP : ∀ j, fetch (points_url latitude longitude) = some j → pointsSafe j = true)
    (hF : ∀ pd u j, fetch (points_url latitude longitude) = some pd →
      forecast_url_of pd = .ok u → fetchJson fetch u = some j → forecastSafe j = true) :
    ∃ s, get_forecast fetch latitude longitude = .ok s := by
  cases hp : fetch (points_url latitude longitude) with
  | none =>
    refine ⟨"Unable to fetch forecast data for this location.", ?_⟩
    unfold get_forecast
    rw [hp]
  | some pd =>
    have hPs := hP pd hp
    by_cases hfal : pd.falsy = true
    · refine ⟨"Unable to fetch forecast data for this location.", ?_⟩
      unfold get_forecast
      rw [hp]
      simp [hfal]
    · have hfal' : pd.falsy = false := by simpa using hfal
      cases pd with
      | obj kvs =>
        cases hlp : List.lookup "properties" kvs with
        | none =>
          refine ⟨"Unable to determine forecast URL for this location.", ?_⟩
          unfold get_forecast forecast_url_of
          rw [hp]
          simp [hfal', Json.index, hlp]
        | some p =>
          simp only [pointsSafe, hfal', Bool.false_or, hlp] at hPs
          cases p with
          | obj pk =>
            cases hlf : List.lookup "forecast" pk with
            | none =>
              refine ⟨"Unable to determine forecast URL for this location.", ?_⟩
              unfold get_forecast forecast_url_of
              rw [hp]
              simp [hfal', Json.index, hlp, hlf]
            | some u =>
              have hfu : forecast_url_of (.obj kvs) = .ok u := by
                simp [forecast_url_of, Json.index, hlp, hlf]
              cases hfd : fetchJson fetch u with
              | none =>
                refine ⟨"Unable to fetch detailed forecast.", ?_⟩
                unfold get_forecast
                rw [hp]
                simp only [hfal', Bool.false_eq_true, if_false]
                rw [hfu]
                simp [hfd]
              | some fd =>
                have hFs := hF (.obj kvs) u fd hp hfu hfd
                by_cases hfdf : fd.falsy = true
                · refine ⟨"Unable to fetch detailed forecast.", ?_⟩
                  unfold get_forecast
                  rw [hp]
                  simp only [hfal', Bool.false_eq_true, if_false]
                  rw [hfu]
                  simp [hfd, hfdf]
                · have hfdf' : fd.falsy = false := by simpa using hfdf
                  cases fd with
                  | obj fkvs =>
                    cases hflp : List.lookup "properties" fkvs with
                    | none => simp [forecastSafe, hfdf', hflp] at hFs
                    | some fp =>
                      simp only [forecastSafe, hfdf', Bool.false_or, hflp] at hFs
                      cases fp with
                      | obj fpk =>
                        dsimp only at hFs
                        cases hlper : List.lookup "periods" fpk with
                        | none => simp [hlper] at hFs
                        | some pv =>
                          cases pv with
                          | arr ps =>
                            simp only [hlper, List.all_eq_true] at hFs
                            obtain ⟨ys, hys⟩ := exceptMap_ok_of_forall
                              (fun x hx => format_period_ok_of_periodSafe (hFs x hx))
                            refine ⟨String.intercalate "\n---\n" ys, ?_⟩
                            unfold get_forecast
                            rw [hp]
                            simp only [hfal', Bool.false_eq_true, if_false]
                            rw [hfu]
                            simp [hfd, hfdf', Json.index, hflp, hlper,
                              Json.slice5, Json.pyIter, hys]
                          | null => simp [hlper] at hFs
                          | bool b => simp [hlper] at hFs
                          | num n => simp [hlper] at hFs
                          | str s => simp [hlper] at hFs
                          | obj o => simp [hlper] at hFs
                      | null => dsimp only at hFs; simp at hFs
                      | bool b => dsimp only at hFs; simp at hFs
                      | num n => dsimp only at hFs; simp at hFs
                      | str s => dsimp only at hFs; simp at hFs
                      | arr xs => dsimp only at hFs; simp at hFs
                  | null => simp [forecastSafe, hfdf'] at hFs
                  | bool b => simp [forecastSafe, hfdf'] at hFs
                  | num n => simp [forecastSafe, hfdf'] at hFs
                  | str s => simp [forecastSafe, hfdf'] at hFs
                  | arr xs => simp [forecastSafe, hfdf'] at hFs
          | null => simp at hPs
          | bool b => simp at hPs
          | num n => simp at hPs
          | str s => simp at hPs
          | arr xs => simp at hPs
      | null => simp [pointsSafe, hfal'] at hPs
      | bool b => simp [pointsSafe, hfal'] at hPs
      | num n => simp [pointsSafe, hfal'] at hPs
      | str s => simp [pointsSafe, hfal'] at hPs
      | arr xs => simp [pointsSafe, hfal'] at hPs

/-- C1: on every successful two-phase lookup whose forecast body carries a
period list `ps`, `get_forecast` returns exactly the formatted blocks of
the first five periods of `ps` in original order, joined by the literal
separator "\n---\n", and the number of blocks is `min 5 ps.length` (so
exactly 5 when more than 5 periods exist, and `n` blocks with `n - 1`
separators when `n ≤ 5`). -/
theorem get_forecast_first_five
    (fetch : String → Option Json) (latitude longitude furl : String)
    (pd fd props : Json) (ps : List Json) (blocks : List String)
    (h1 : fetch (points_url latitude longitude) = some pd)
    (h2 : pd.falsy = false)
    (h3 : forecast_url_of pd = .ok (.str furl))
    (h4 : fetch furl = some fd)
    (h5 : fd.falsy = false)
    (h6 : fd.index "properties" = .ok props)
    (h7 : props.index "periods" = .ok (.arr ps))
    (h8 : exceptMap format_period (ps.take 5) = .ok blocks) :
    get_forecast fetch latitude longitude =
      .ok (String.intercalate "\n---\n" blocks) ∧ blocks.length = min 5 ps.length := by
  constructor
  · unfold get_forecast
    rw [h1]
    simp only [h2, if_false, Bool.false_eq_true]
    rw [h3]
    simp only [fetchJson]
    rw [h4]
    simp only [h5, if_false, Bool.false_eq_true]
    rw [h6]
    simp only [ok_bind]
    rw [h7]
    simp only [ok_bind, Json.slice5, Json.pyIter]
    rw [h8]
    simp only [ok_bind, pure_eq_ok]
  · rw [exceptMap_ok_length h8, List.length_take]

/-- Witness for C1: a concrete oracle with six periods renders exactly the
first five blocks. -/
theorem get_forecast_first_five_witness :
    get_forecast w1_fetch "47.6062" "-122.3321" =
      .ok (String.intercalate "\n---\n" w1_blocks) ∧
    w1_blocks.length = min 5 w1_periods.length :=
  get_forecast_first_five w1_fetch "47.6062" "-122.3321"
    "https://api.weather.gov/gridpoints/SEW/124,67/forecast"
    w1_points w1_forecast (.obj [("periods", .arr w1_periods)]) w1_periods w1_blocks
    rfl rfl rfl rfl rfl rfl rfl rfl

/-- C2: on every well-formed alerts response carrying an empty feature
list, `get_alerts` returns exactly "No active alerts for this state.",
which is distinct from the fetch-failure string that a failed fetch
produces. -/
theorem get_alerts_empty_features
    (fetch : String → Option Json) (state : String) (d : Json)
    (h1 : fetch (alerts_url state) = some d)
    (h2 : d.index "features" = .ok (.arr [])) :
    get_alerts fetch state = .ok "No active alerts for this state." ∧
    "No active alerts for this state." ≠ "Unable to fetch alerts or no alerts found." ∧
    get_alerts (fun _ => none) state = .ok "Unable to fetch alerts or no alerts found." := by
  refine ⟨?_, by decide, rfl⟩
  cases d with
  | obj kvs =>
    cases hl : List.lookup "features" kvs with
    | none => simp [Json.index, hl] at h2
    | some v =>
      simp only [Json.index, hl] at h2
      cases h2
      unfold get_alerts
      rw [h1]
      simp [Json.falsy, lookup_ne_nil hl, Json.containsStr, hl, Json.index]
  | null => simp [Json.index] at h2
  | bool b => simp [Json.index] at h2
  | num n => simp [Json.index] at h2
  | str s => simp [Json.index] at h2
  | arr xs => simp [Json.index] at h2

/-- Witness for C2: a concrete oracle answering with `features: []`. -/
theorem get_alerts_empty_features_witness :
    get_alerts w2_fetch "CA" = .ok "No active alerts for this state." ∧
    "No active alerts for this state." ≠ "Unable to fetch alerts or no alerts found." ∧
    get_alerts (fun _ => none) "CA" = .ok "Unable to fetch alerts or no alerts found." :=
  get_alerts_empty_features w2_fetch "CA" (.obj [("features", .arr [])]) rfl rfl

/-- C3: whenever the phase-1 points request fails (the request helper
yields absence, or Python's falsy check fires), `get_forecast` returns
exactly the phase-1 failure string, never the phase-2 message; no second
request outcome can influence the result since `fetch` is arbitrary
elsewhere. -/
theorem get_forecast_phase1_failure
    (fetch : String → Option Json) (latitude longitude : String)
    (h : notData (fetch (points_url latitude longitude)) = true) :
    get_forecast fetch latitude longitude =
      .ok "Unable to fetch forecast data for this location." ∧
    "Unable to fetch forecast data for this location." ≠
      "Unable to fetch detailed forecast." := by
  refine ⟨?_, by decide⟩
  cases hf : fetch (points_url latitude longitude) with
  | none => simp [get_forecast, hf]
  | some d =>
    rw [hf] at h
    simp only [notData] at h
    simp [get_forecast, hf, h]

/-- Witness for C3: an oracle that always fails. -/
theorem get_forecast_phase1_failure_witness :
    get_forecast (fun _ => none) "47.6062" "-122.3321" =
      .ok "Unable to fetch forecast data for this location." ∧
    "Unable to fetch forecast data for this location." ≠
      "Unable to fetch detailed forecast." :=
  get_forecast_phase1_failure (fun _ => none) "47.6062" "-122.3321" rfl

/-- C4: whenever the phase-1 request succeeds with a truthy body but the
forecast URL extraction raises the `KeyError` the code catches (no
forecast reference reachable under properties.forecast), `get_forecast`
returns the distinct missing-reference string, a third outcome different
from both fetch-failure strings. -/
theorem get_forecast_missing_url
    (fetch : String → Option Json) (latitude longitude k : String) (pd : Json)
    (h1 : fetch (points_url latitude longitude) = some pd)
    (h2 : pd.falsy = false)
    (h3 : forecast_url_of pd = .error (.keyError k)) :
    get_forecast fetch latitude longitude =
      .ok "Unable to determine forecast URL for this location." ∧
    "Unable to determine forecast URL for this location." ≠
      "Unable to fetch forecast data for this location." ∧
    "Unable to determine forecast URL for this location." ≠
      "Unable to fetch detailed forecast." := by
  refine ⟨?_, by decide, by decide⟩
  unfold get_forecast
  rw [h1]
  simp only [h2, Bool.false_eq_true, if_false]
  rw [h3]

/-- Witness for C4: a points body whose `properties` dict lacks the
`forecast` key. -/
theorem get_forecast_missing_url_witness :
    get_forecast w4_fetch "47.6062" "-122.3321" =
      .ok "Unable to determine forecast URL for this location." ∧
    "Unable to determine forecast URL for this location." ≠
      "Unable to fetch forecast data for this location." ∧
    "Unable to determine forecast URL for this location." ≠
      "Unable to fetch detailed forecast." :=
  get_forecast_missing_url w4_fetch "47.6062" "-122.3321" "forecast" w4_points rfl rfl rfl

/-- C5: whenever phase 1 succeeds and yields a forecast endpoint but the
phase-2 request fails (the request helper yields absence, or the falsy
check fires), `get_forecast` returns exactly "Unable to fetch detailed
forecast.", distinct from the phase-1 failure string. -/
theorem get_forecast_phase2_failure
    (fetch : String → Option Json) (latitude longitude furl : String) (pd : Json)
    (h1 : fetch (points_url latitude longitude) = some pd)
    (h2 : pd.falsy = false)
    (h3 : forecast_url_of pd = .ok (.str furl))
    (h4 : notData (fetch furl) = true) :
    get_forecast fetch latitude longitude = .ok "Unable to fetch detailed forecast." ∧
    "Unable to fetch detailed forecast." ≠
      "Unable to fetch forecast data for this location." := by
  refine ⟨?_, by decide⟩
  unfold get_forecast
  rw [h1]
  simp only [h2, Bool.false_eq_true, if_false]
  rw [h3]
  simp only [fetchJson]
  cases hf : fetch furl with
  | none => rfl
  | some fd =>
    rw [hf] at h4
    simp only [notData] at h4
    simp [h4]

/-- Witness for C5: an oracle resolving phase 1 but failing phase 2. -/
theorem get_forecast_phase2_failure_witness :
    get_forecast w5_fetch "47.6062" "-122.3321" = .ok "Unable to fetch detailed forecast." ∧
    "Unable to fetch detailed forecast." ≠
      "Unable to fetch forecast data for this location." :=
  get_forecast_phase2_failure w5_fetch "47.6062" "-122.3321"
    "https://api.weather.gov/gridpoints/SEW/124,67/forecast" w5_points rfl rfl rfl rfl

/-- Counterexample to C6 as stated: a phase-2 forecast body lacking the
properties/periods structure makes `get_forecast` raise an uncaught
`KeyError` (the access `forecast_data["properties"]["periods"]` is outside
any try/except), and an alert feature lacking the "properties" key makes
`get_alerts` raise through `format_alert`; neither run returns a text
result. -/
theorem pipelines_raise_on_malformed_bodies :
    get_forecast c6_fetch "47.6062" "-122.3321" = .error (.keyError "properties") ∧
    get_alerts c6_alert_fetch "WA" = .error (.keyError "properties") := ⟨rfl, rfl⟩

/-- C6 as amended: `get_forecast` and `get_alerts` return a text result
and never raise provided every fetched body is well-formed for its role
(points bodies `pointsSafe`, resolved forecast bodies `forecastSafe`,
alerts bodies `alertSafe`); the malformed bodies listed in the claim
instead cause an uncaught exception, as the counterexample shows. -/
theorem pipelines_total_on_wellformed
    (fetch : String → Option Json) (state latitude longitude : String)
    (hA : ∀ j, fetch (alerts_url state) = some j → alertSafe j = true)
    (hP : ∀ j, fetch (points_url latitude longitude) = some j → pointsSafe j = true)
    (hF : ∀ pd u j, fetch (points_url latitude longitude) = some pd →
      forecast_url_of pd = .ok u → fetchJson fetch u = some j → forecastSafe j = true) :
    (∃ s, get_alerts fetch state = .ok s) ∧
    (∃ s, get_forecast fetch latitude longitude = .ok s) :=
  ⟨get_alerts_total fetch state hA, get_forecast_total fetch latitude longitude hP hF⟩

/-- Witness for the amended C6: a concrete oracle with well-formed bodies
for both pipelines. -/
theorem pipelines_total_on_wellformed_witness :
    (∃ s, get_alerts w6_fetch "CA" = .ok s) ∧
    (∃ s, get_forecast w6_fetch "47.6062" "-122.3321" = .ok s) :=
  pipelines_total_on_wellformed w6_fetch "CA" "47.6062" "-122.3321"
    (fun j h => by
      rw [show w6_fetch (alerts_url "CA") = some w6_alert_body from rfl] at h
      cases h
      decide)
    (fun j h => by
      rw [show w6_fetch (points_url "47.6062" "-122.3321") = some w6_points from rfl] at h
      cases h
      decide)
    (fun pd u j h1 h2 h3 => by
      rw [show w6_fetch (points_url "47.6062" "-122.3321") = some w6_points from rfl] at h1
      cases h1
      rw [show forecast_url_of w6_points = Except.ok (Json.str
        "https://api.weather.gov/gridpoints/SEW/124,67/forecast") from rfl] at h2
      cases h2
      rw [show fetchJson w6_fetch (Json.str
        "https://api.weather.gov/gridpoints/SEW/124,67/forecast") = some w6_forecast
        from rfl] at h3
      cases h3
      decide)

/-- C7: on every alert feature whose "properties" mapping is a dict,
`format_alert` returns a block rendering, for each of the five optional
fields, the field value when present and its defined placeholder when
missing, without raising. -/
theorem format_alert_placeholders
    (feature : Json) (kvs : List (String × Json))
    (h : feature.index "properties" = .ok (.obj kvs)) :
    format_alert feature =
      .ok ("\nEvent: " ++ fieldOrDefault kvs "event" "Unknown"
        ++ "\nArea: " ++ fieldOrDefault kvs "areaDesc" "Unknown"
        ++ "\nSeverity: " ++ fieldOrDefault kvs "severity" "Unknown"
        ++ "\nDescription: " ++ fieldOrDefault kvs "description" "No description available"
        ++ "\nInstructions: "
        ++ fieldOrDefault kvs "instruction" "No specific instructions provided"
        ++ "\n") := by
  unfold format_alert
  rw [h]
  simp only [ok_bind, Json.dictGet, pure_eq_ok, pyStr_getD]

/-- Witness for C7: a feature carrying only the `event` field renders the
placeholders for the four missing fields. -/
theorem format_alert_placeholders_witness :
    format_alert (.obj [("properties", .obj w7_props)]) =
      .ok ("\nEvent: " ++ fieldOrDefault w7_props "event" "Unknown"
        ++ "\nArea: " ++ fieldOrDefault w7_props "areaDesc" "Unknown"
        ++ "\nSeverity: " ++ fieldOrDefault w7_props "severity" "Unknown"
        ++ "\nDescription: " ++ fieldOrDefault w7_props "description" "No description available"
        ++ "\nInstructions: "
        ++ fieldOrDefault w7_props "instruction" "No specific instructions provided"
        ++ "\n") :=
  format_alert_placeholders (.obj [("properties", .obj w7_props)]) w7_props rfl

/-- C8: formatting is pure and deterministic: `format_alert` and
`format_period` are functions of their input alone (equal inputs give
identical text, and they take no oracle, so no network or state effect is
possible in the embedding), and the pipelines are determined by the
oracle's answers at the URLs they request. -/
theorem formatting_pure_deterministic :
    (∀ f₁ f₂ : Json, f₁ = f₂ → format_alert f₁ = format_alert f₂) ∧
    (∀ p₁ p₂ : Json, p₁ = p₂ → format_period p₁ = format_period p₂) ∧
    (∀ (fetch₁ fetch₂ : String → Option Json) (state : String),
      fetch₁ (alerts_url state) = fetch₂ (alerts_url state) →
      get_alerts fetch₁ state = get_alerts fetch₂ state) ∧
    (∀ (fetch₁ fetch₂ : String → Option Json) (latitude longitude : String),
      fetch₁ (points_url latitude longitude) = fetch₂ (points_url latitude longitude) →
      (∀ pd furl, fetch₁ (points_url latitude longitude) = some pd →
        forecast_url_of pd = .ok (.str furl) → fetch₁ furl = fetch₂ furl) →
      get_forecast fetch₁ latitude longitude = get_forecast fetch₂ latitude longitude) := by
  refine ⟨fun _ _ h => by rw [h], fun _ _ h => by rw [h], ?_, ?_⟩
  · intro fetch₁ fetch₂ state h
    unfold get_alerts
    rw [h]
  · intro fetch₁ fetch₂ latitude longitude h hf
    unfold get_forecast
    rw [h]
    cases hp : fetch₂ (points_url latitude longitude) with
    | none => rfl
    | some pd =>
      have h1 : fetch₁ (points_url latitude longitude) = some pd := by rw [h, hp]
      cases hfal : pd.falsy with
      | true => simp [hfal]
      | false =>
        simp only [hfal, Bool.false_eq_true, if_false]
        cases hfu : forecast_url_of pd with
        | error e => cases e <;> rfl
        | ok u =>
          have e1 : fetchJson fetch₁ u = fetchJson fetch₂ u := by
            cases u with
            | str furl => exact hf pd furl h1 hfu
            | null => rfl
            | bool b => rfl
            | num n => rfl
            | arr xs => rfl
            | obj kvs => rfl
          dsimp only
          rw [e1]

/-- Witness for C8: applications at concrete inputs. -/
theorem formatting_pure_deterministic_witness :
    format_alert (.obj [("properties", .obj [])]) =
      format_alert (.obj [("properties", .obj [])]) ∧
    format_period (.obj []) = format_period (.obj []) ∧
    get_alerts (fun _ => none) "CA" = get_alerts (fun _ => none) "CA" ∧
    get_forecast (fun _ => none) "47.6062" "-122.3321" =
      get_forecast (fun _ => none) "47.6062" "-122.3321" :=
  ⟨formatting_pure_deterministic.1 _ _ rfl,
   formatting_pure_deterministic.2.1 _ _ rfl,
   formatting_pure_deterministic.2.2.1 _ _ "CA" rfl,
   formatting_pure_deterministic.2.2.2 _ _ "47.6062" "-122.3321" rfl
     (fun _ _ hpd _ => Option.noConfusion hpd)⟩

/-- C9: on every successful two-phase lookup whose forecast body carries
an empty period list, `get_forecast` returns the empty string (the join
of zero blocks), which is none of the three error strings. -/
theorem get_forecast_empty_periods
    (fetch : String → Option Json) (latitude longitude furl : String)
    (pd fd props : Json)
    (h1 : fetch (points_url latitude longitude) = some pd)
    (h2 : pd.falsy = false)
    (h3 : forecast_url_of pd = .ok (.str furl))
    (h4 : fetch furl = some fd)
    (h5 : fd.falsy = false)
    (h6 : fd.index "properties" = .ok props)
    (h7 : props.index "periods" = .ok (.arr [])) :
    get_forecast fetch latitude longitude = .ok "" ∧
    ("" : String) ≠ "Unable to fetch forecast data for this location." ∧
    ("" : String) ≠ "Unable to determine forecast URL for this location." ∧
    ("" : String) ≠ "Unable to fetch detailed forecast." := by
  refine ⟨?_, by decide, by decide, by decide⟩
  unfold get_forecast
  rw [h1]
  simp only [h2, Bool.false_eq_true, if_false]
  rw [h3]
  simp only [fetchJson]
  rw [h4]
  simp only [h5, Bool.false_eq_true, if_false]
  rw [h6]
  simp only [ok_bind]
  rw [h7]
  simp only [ok_bind, Json.slice5, Json.pyIter, List.take, exceptMap, pure_eq_ok]
  rfl

/-- Witness for C9: a concrete oracle returning `periods: []`. -/
theorem get_forecast_empty_periods_witness :
    get_forecast w9_fetch "47.6062" "-122.3321" = .ok "" ∧
    ("" : String) ≠ "Unable to fetch forecast data for this location." ∧
    ("" : String) ≠ "Unable to determine forecast URL for this location." ∧
    ("" : String) ≠ "Unable to fetch detailed forecast." :=
  get_forecast_empty_periods w9_fetch "47.6062" "-122.3321"
    "https://api.weather.gov/gridpoints/SEW/124,67/forecast"
    w9_points w9_forecast (.obj [("periods", .arr [])]) rfl rfl rfl rfl rfl rfl rfl

/-- C10: the three near-duplicate copies of the pipelines (Challenge-02
solution, challenge-03 client, challenge-04 remote server) are
extensionally equal: on every oracle and every input they produce the
same result. -/
theorem copies_extensionally_equal :
    ∀ (fetch : String → Option Json) (state latitude longitude : String) (feature : Json),
      (get_alerts fetch state = Ch03.get_alerts fetch state ∧
       get_alerts fetch state = Ch04.get_alerts fetch state) ∧
      (get_forecast fetch latitude longitude = Ch03.get_forecast fetch latitude longitude ∧
       get_forecast fetch latitude longitude = Ch04.get_forecast fetch latitude longitude) ∧
      (format_alert feature = Ch03.format_alert feature ∧
       format_alert feature = Ch04.format_alert feature) :=
  fun _ _ _ _ _ => ⟨⟨rfl, rfl⟩, ⟨rfl, rfl⟩, ⟨rfl, rfl⟩⟩
